import Mathlib

/-!
Verification development for the roosearch semantic code search tool.

The repository holds two near duplicate TypeScript implementations of the
same pipeline: a hardcoded one (fixed collection name, single file exporting
the tool) and a parameterized one (the plugin file, whose search is scoped
to a collection named after the workspace path through a SHA-256 hash).
Both share the interfaces `VectorStoreSearchResult`, `Payload`,
`EmbeddingResponse`, `SearchResult` and the functions `createEmbeddings`,
`searchQdrant`, `filterValidResults`, `transformSearchResult`,
`transformResults`, `formatSearchResult`, `formatResults`,
`executeSearchPipeline`. The hardcoded file is embedded at top level; the
parameterized file is embedded in the `Roosearch` namespace together with
its configuration record. The embedding is shallow:

* JavaScript numbers carried in payloads (line numbers) are modelled as `Int`,
  relevance scores as `ℚ`; NaN is not modelled (it never arises in the
  pipeline, which only copies and compares numbers coming from the services).
* A payload field that may be absent at runtime (the code defends against
  this with truthiness checks) is modelled as an `Option`; a key that is
  present but bound to the JavaScript value undefined is identified with the
  absent key.
* Code that can throw returns `Except JsThrown`; a thrown value is either an
  Error object carrying a message or any non-Error value.
* The two network collaborators (the embedding HTTP endpoint and the vector
  database) are inputs of the pipeline: the fetch outcome and the database
  are passed as explicit parameters, so one pipeline run is a pure function
  of the query and of the behaviour of the two services.
-/

/-- A value thrown by JavaScript code: either an Error object carrying a
message, or any non-Error value (the code only ever looks at thrown values
through the test written as error instanceof Error followed by a read of
the message field). -/
inductive JsThrown where
  | error (msg : String)
  | nonError
  deriving DecidableEq, Repr

/-- The expression written in the source as a conditional on error
instanceof Error: the message of an Error, and the literal
string Unknown error for any non-Error thrown value. -/
def jsMessage : JsThrown → String
  | .error m => m
  | .nonError => "Unknown error"

/-- Payload attached to an indexed vector. The TypeScript interface declares
all four fields; at runtime the vector database may omit any of them, which
the code defends against, so each field is modelled as an `Option`. -/
structure Payload where
  filePath : Option String
  codeChunk : Option String
  startLine : Option Int
  endLine : Option Int
  deriving DecidableEq, Repr

/-- Raw scored point returned by the vector database
(interface `VectorStoreSearchResult`). The unused identifier field is
modelled as a `Nat`. -/
structure VectorStoreSearchResult where
  id : Nat
  score : ℚ
  payload : Option Payload
  deriving DecidableEq, Repr

/-- Response body of the embedding service (interface `EmbeddingResponse`). -/
structure EmbeddingResponse where
  embeddings : List (List ℚ)
  deriving DecidableEq, Repr

/-- Normalized result record (interface `SearchResult`). The line fields are
`Option Int` because the code copies them from the payload without checking
presence, so the JavaScript value undefined can be copied verbatim. -/
structure SearchResult where
  filePath : String
  score : ℚ
  startLine : Option Int
  endLine : Option Int
  codeChunk : String
  deriving DecidableEq, Repr

/-- JavaScript truthiness of a possibly absent string: absent and the empty
string are falsy. -/
def truthyString : Option String → Bool
  | some s => s != ""
  | none => false

/-- JavaScript truthiness of a possibly absent number: absent and zero are
falsy. -/
def truthyInt : Option Int → Bool
  | some n => n != 0
  | none => false

/-- Characters stripped by the JavaScript trim method (the model covers the
ASCII whitespace characters that can occur in code chunks). -/
def isJsWhitespace (c : Char) : Bool :=
  c == ' ' || c == '\t' || c == '\n' || c == '\r'

/-- Character list of a string with leading and trailing whitespace
removed. -/
def trimChars (l : List Char) : List Char :=
  ((l.dropWhile isJsWhitespace).reverse.dropWhile isJsWhitespace).reverse

/-- The JavaScript trim method: strips leading and trailing whitespace. -/
def jsTrim (s : String) : String :=
  String.mk (trimChars s.data)

/-- The predicate applied by `filterValidResults`: the payload is present,
contains the key filePath, and the four fields filePath, startLine, endLine,
codeChunk are truthy. Mirrors the source expression
result.payload and filePath in result.payload and result.payload.filePath
and result.payload.startLine and result.payload.endLine and
result.payload.codeChunk. -/
def isValidResult (r : VectorStoreSearchResult) : Bool :=
  match r.payload with
  | none => false
  | some p =>
      p.filePath.isSome && truthyString p.filePath && truthyInt p.startLine &&
        truthyInt p.endLine && truthyString p.codeChunk

/-- Source function `filterValidResults`: keeps the points passing
`isValidResult`. -/
def filterValidResults (results : List VectorStoreSearchResult) : List VectorStoreSearchResult :=
  results.filter isValidResult

/-- Message of the TypeError raised by the JavaScript runtime when the trim
method is read off the value undefined (the exact engine wording is
immaterial to the development; this constant stands for it). -/
def trimTypeErrorMsg : String :=
  "Cannot read properties of undefined (reading trim)"

/-- Source function `transformSearchResult`: returns null when the payload is
absent or has no filePath key; otherwise builds the normalized record,
trimming the code chunk. Reading trim off an absent codeChunk throws a
TypeError, modelled by the `Except.error` case. -/
def transformSearchResult (result : VectorStoreSearchResult) :
    Except JsThrown (Option SearchResult) :=
  match result.payload with
  | none => .ok none
  | some p =>
      match p.filePath with
      | none => .ok none
      | some fp =>
          match p.codeChunk with
          | none => .error (.error trimTypeErrorMsg)
          | some cc =>
              .ok (some { filePath := fp, score := result.score,
                          startLine := p.startLine, endLine := p.endLine,
                          codeChunk := jsTrim cc })

/-- Left to right effectful map: the JavaScript map callback runs on the
elements in order and the first thrown value propagates. -/
def mapExcept {α β ε : Type} (f : α → Except ε β) : List α → Except ε (List β)
  | [] => .ok []
  | x :: xs =>
      match f x with
      | .error e => .error e
      | .ok y =>
          match mapExcept f xs with
          | .error e => .error e
          | .ok ys => .ok (y :: ys)

/-- Source function `transformResults`: filter, map `transformSearchResult`,
then drop the null entries. -/
def transformResults (results : List VectorStoreSearchResult) :
    Except JsThrown (List SearchResult) :=
  match mapExcept transformSearchResult (filterValidResults results) with
  | .error e => .error e
  | .ok transformed => .ok (transformed.filterMap id)

/-- Zero padded three digit decimal rendering of a natural number below
1000. -/
def pad3 (k : Nat) : String :=
  if k < 10 then "00" ++ toString k
  else if k < 100 then "0" ++ toString k
  else toString k

/-- Fixed point rendering with three decimals of a nonnegative rational,
rounding to the nearest thousandth and upward on ties, as the JavaScript
toFixed method does. -/
def fixed3OfNonneg (q : ℚ) : String :=
  let n := (q * 1000 + 1 / 2).floor.toNat
  toString (n / 1000) ++ "." ++ pad3 (n % 1000)

/-- The JavaScript expression score.toFixed(3). -/
def toFixed3 (q : ℚ) : String :=
  if q < 0 then "-" ++ fixed3OfNonneg (-q) else fixed3OfNonneg q

/-- Rendering of a line number inside a template literal: a number prints in
decimal, the value undefined prints as the word undefined. -/
def renderLineNum : Option Int → String
  | some n => toString n
  | none => "undefined"

/-- Source function `formatSearchResult`: the template literal rendering one
result block. -/
def formatSearchResult (r : SearchResult) : String :=
  "File: " ++ r.filePath ++ "\nScore: " ++ toFixed3 r.score ++ "\nLines: " ++
    renderLineNum r.startLine ++ "-" ++ renderLineNum r.endLine ++
    "\nCode:\n```\n" ++ r.codeChunk ++ "\n```\n"

/-- Stable insertion of a result into a list already sorted by descending
score: the new element goes in front of the first element whose score is not
greater. This is the denotation of the JavaScript stable sort with the
comparator returning b.score - a.score for the element that arrived earlier
in the input. -/
def insertDesc (x : SearchResult) : List SearchResult → List SearchResult
  | [] => [x]
  | y :: ys => if y.score ≤ x.score then x :: y :: ys else y :: insertDesc x ys

/-- Stable sort by descending score, the behaviour required of
Array.prototype.sort with the comparator written in `formatResults`. -/
def sortByScoreDesc : List SearchResult → List SearchResult
  | [] => []
  | x :: xs => insertDesc x (sortByScoreDesc xs)

/-- The pluralization expression written in the source as a conditional on
results.length !== 1. -/
def resultCountNoun (n : Nat) : String :=
  if n != 1 then "s" else ""

/-- Source function `formatResults`: the empty input renders the no results
message; otherwise the results are sorted on a copy by descending score and
rendered blocks are joined with a blank line between preamble and trailer. -/
def formatResults (results : List SearchResult) (query : String) : String :=
  if results.length = 0 then
    "Query: \"" ++ query ++ "\"\n\nNo results found."
  else
    "Query: \"" ++ query ++ "\"\n\nFound " ++ toString results.length ++
      " result" ++ resultCountNoun results.length ++ ":\n\n" ++
      String.intercalate "\n\n" ((sortByScoreDesc results).map formatSearchResult) ++
      "\n\n---\nSearch completed with " ++ toString results.length ++
      " result" ++ resultCountNoun results.length ++ "."

/-- Outcome of the fetch call against the embedding service, as observed by
`createEmbeddings`: a parsed successful body, a response with ok false
carrying its status text, or a thrown value (network failure or a body that
fails to parse). -/
inductive FetchOutcome where
  | success (body : EmbeddingResponse)
  | httpError (statusText : String)
  | threw (e : JsThrown)
  deriving DecidableEq, Repr

/-- Source function `createEmbeddings` as a function of the fetch outcome: a
non ok response raises an Error whose message starts with Failed to create
embeddings, and every failure is rewrapped by the catch block into an Error
whose message starts with Embedding creation failed. -/
def createEmbeddings : FetchOutcome → Except JsThrown EmbeddingResponse
  | .success body => .ok body
  | .httpError statusText =>
      .error (.error ("Embedding creation failed: Failed to create embeddings: " ++ statusText))
  | .threw e => .error (.error ("Embedding creation failed: " ++ jsMessage e))

/-- The query request sent to the vector database (the object literal built
inside `searchQdrant`). The filter field is set to the JavaScript value
undefined in the source and is modelled as an always absent `Option`. -/
structure SearchRequest where
  query : Option (List ℚ)
  filter : Option Unit
  score_threshold : ℚ
  limit : Nat
  hnsw_ef : Nat
  exact : Bool
  with_payload_include : List String
  deriving Repr

/-- The request built by `searchQdrant` from an embedding response: the query
vector is the first inner array of the embeddings field (the JavaScript index
expression yields undefined on an empty outer array, hence the head
option). -/
def searchRequest (embedding : EmbeddingResponse) : SearchRequest :=
  { query := embedding.embeddings.head?
    filter := none
    score_threshold := 0.40
    limit := 50
    hnsw_ef := 128
    exact := false
    with_payload_include := ["filePath", "codeChunk", "startLine", "endLine", "pathSegments"] }

/-- Behaviour of the vector database client: a function from collection name
and request to either the returned points or a thrown value. -/
abbrev QdrantDb :=
  String → SearchRequest → Except JsThrown (List VectorStoreSearchResult)

/-- The collection name hardcoded in the source call to the query method of
the qdrant client. -/
def hardcodedCollection : String := "ws-e9be3207f7247f18"

/-- Source function `searchQdrant`: queries the hardcoded collection with the
request built from the embedding response; any thrown value is rewrapped by
the catch block into an Error whose message starts with Search operation
failed. -/
def searchQdrant (embedding : EmbeddingResponse) (db : QdrantDb) :
    Except JsThrown (List VectorStoreSearchResult) :=
  match db hardcodedCollection (searchRequest embedding) with
  | .ok points => .ok points
  | .error e => .error (.error ("Search operation failed: " ++ jsMessage e))

/-- Source function `executeSearchPipeline`: embed, search, transform, format,
with a top level catch that converts any thrown value into the literal text
Error executing search followed by the message of the thrown value. The
return type `String` reflects that the function never raises. -/
def executeSearchPipeline (query : String) (fetchOutcome : FetchOutcome)
    (db : QdrantDb) : String :=
  match createEmbeddings fetchOutcome with
  | .error e => "Error executing search: " ++ jsMessage e
  | .ok embeddingResponse =>
      match searchQdrant embeddingResponse db with
      | .error e => "Error executing search: " ++ jsMessage e
      | .ok searchResults =>
          match transformResults searchResults with
          | .error e => "Error executing search: " ++ jsMessage e
          | .ok transformedResults => formatResults transformedResults query

/-!
SHA-256. The parameterized implementation derives the collection name by
calling the crypto library: createHash of sha256, update with the workspace
path (whose default string encoding is UTF-8), digest as hex (lowercase).
That library hash is embedded here directly from the SHA-256 standard, the
algorithm the library call names: 32 bit words are naturals reduced modulo
2 to the 32, messages are byte lists, and the digest is rendered in
lowercase hexadecimal. The embedding is checked below against the published
SHA-256 test vectors.
-/

/-- Reduction of a natural number to a 32 bit word. -/
def mod32 (n : Nat) : Nat := n % 4294967296

/-- Right rotation of a 32 bit word by k positions, written arithmetically. -/
def rotr32 (k n : Nat) : Nat := n / 2 ^ k + n % 2 ^ k * 2 ^ (32 - k)

/-- Bitwise complement of a 32 bit word. -/
def not32 (n : Nat) : Nat := Nat.xor n 4294967295

/-- The SHA-256 choice function. -/
def ch32 (x y z : Nat) : Nat := Nat.xor (Nat.land x y) (Nat.land (not32 x) z)

/-- The SHA-256 majority function. -/
def maj32 (x y z : Nat) : Nat :=
  Nat.xor (Nat.xor (Nat.land x y) (Nat.land x z)) (Nat.land y z)

/-- The SHA-256 large sigma zero function. -/
def bigSigma0 (x : Nat) : Nat :=
  Nat.xor (Nat.xor (rotr32 2 x) (rotr32 13 x)) (rotr32 22 x)

/-- The SHA-256 large sigma one function. -/
def bigSigma1 (x : Nat) : Nat :=
  Nat.xor (Nat.xor (rotr32 6 x) (rotr32 11 x)) (rotr32 25 x)

/-- The SHA-256 small sigma zero function. -/
def smallSigma0 (x : Nat) : Nat :=
  Nat.xor (Nat.xor (rotr32 7 x) (rotr32 18 x)) (x / 2 ^ 3)

/-- The SHA-256 small sigma one function. -/
def smallSigma1 (x : Nat) : Nat :=
  Nat.xor (Nat.xor (rotr32 17 x) (rotr32 19 x)) (x / 2 ^ 10)

/-- The 64 SHA-256 round constants. -/
def sha256K : List Nat :=
  [1116352408, 1899447441, 3049323471, 3921009573,
   961987163, 1508970993, 2453635748, 2870763221,
   3624381080, 310598401, 607225278, 1426881987,
   1925078388, 2162078206, 2614888103, 3248222580,
   3835390401, 4022224774, 264347078, 604807628,
   770255983, 1249150122, 1555081692, 1996064986,
   2554220882, 2821834349, 2952996808, 3210313671,
   3336571891, 3584528711, 113926993, 338241895,
   666307205, 773529912, 1294757372, 1396182291,
   1695183700, 1986661051, 2177026350, 2456956037,
   2730485921, 2820302411, 3259730800, 3345764771,
   3516065817, 3600352804, 4094571909, 275423344,
   430227734, 506948616, 659060556, 883997877,
   958139571, 1322822218, 1537002063, 1747873779,
   1955562222, 2024104815, 2227730452, 2361852424,
   2428436474, 2756734187, 3204031479, 3329325298]

/-- The eight 32 bit working variables of the compression function. -/
structure Sha256State where
  a : Nat
  b : Nat
  c : Nat
  d : Nat
  e : Nat
  f : Nat
  g : Nat
  h : Nat
  deriving DecidableEq, Repr

/-- The SHA-256 initial hash value. -/
def sha256Init : Sha256State :=
  ⟨1779033703, 3144134277, 1013904242, 2773480762,
   1359893119, 2600822924, 528734635, 1541459225⟩

/-- One SHA-256 round: the pair carries the scheduled word and the round
constant. -/
def sha256Round (s : Sha256State) (wk : Nat × Nat) : Sha256State :=
  let t1 := mod32 (s.h + bigSigma1 s.e + ch32 s.e s.f s.g + wk.2 + wk.1)
  let t2 := mod32 (bigSigma0 s.a + maj32 s.a s.b s.c)
  ⟨mod32 (t1 + t2), s.a, s.b, s.c, mod32 (s.d + t1), s.e, s.f, s.g⟩

/-- Extension step of the message schedule, operating on the reversed list of
words produced so far (the head is the most recent word). -/
def scheduleAux : Nat → List Nat → List Nat
  | 0, acc => acc
  | n + 1, acc =>
      scheduleAux n
        (mod32 (smallSigma1 (acc.getD 1 0) + acc.getD 6 0 +
          smallSigma0 (acc.getD 14 0) + acc.getD 15 0) :: acc)

/-- The 64 word message schedule of a 16 word block. -/
def sha256Schedule (block : List Nat) : List Nat :=
  (scheduleAux 48 block.reverse).reverse

/-- The SHA-256 compression function on one 16 word block. -/
def sha256Compress (s : Sha256State) (block : List Nat) : Sha256State :=
  let t := ((sha256Schedule block).zip sha256K).foldl sha256Round s
  ⟨mod32 (s.a + t.a), mod32 (s.b + t.b), mod32 (s.c + t.c), mod32 (s.d + t.d),
   mod32 (s.e + t.e), mod32 (s.f + t.f), mod32 (s.g + t.g), mod32 (s.h + t.h)⟩

/-- Grouping of a byte list into big endian 32 bit words; the first argument
is structural recursion fuel. -/
def wordsOfBytes : Nat → List Nat → List Nat
  | fuel + 1, b0 :: b1 :: b2 :: b3 :: rest =>
      (b0 * 16777216 + b1 * 65536 + b2 * 256 + b3) :: wordsOfBytes fuel rest
  | _, _ => []

/-- Grouping of a word list into 16 word blocks; the first argument is
structural recursion fuel. -/
def blocksOfWords : Nat → List Nat → List (List Nat)
  | fuel + 1, w :: ws =>
      ((w :: ws).take 16) :: blocksOfWords fuel ((w :: ws).drop 16)
  | _, _ => []

/-- SHA-256 padding: the byte 128, zero bytes up to 56 modulo 64, and the bit
length in 8 big endian bytes. -/
def sha256Pad (msg : List Nat) : List Nat :=
  let len := msg.length
  let zeros := (64 - (len + 9) % 64) % 64
  let bitLen := 8 * len
  msg ++ 128 :: (List.replicate zeros 0 ++
    [bitLen / 2 ^ 56 % 256, bitLen / 2 ^ 48 % 256, bitLen / 2 ^ 40 % 256,
     bitLen / 2 ^ 32 % 256, bitLen / 2 ^ 24 % 256, bitLen / 2 ^ 16 % 256,
     bitLen / 2 ^ 8 % 256, bitLen % 256])

/-- The SHA-256 digest of a byte list, as eight 32 bit words. -/
def sha256Digest (msg : List Nat) : Sha256State :=
  let padded := sha256Pad msg
  let ws := wordsOfBytes padded.length padded
  (blocksOfWords ws.length ws).foldl sha256Compress sha256Init

/-- The SHA-256 digest as its 32 big endian bytes. -/
def sha256Bytes (msg : List Nat) : List Nat :=
  let s := sha256Digest msg
  [s.a / 2 ^ 24 % 256, s.a / 2 ^ 16 % 256, s.a / 2 ^ 8 % 256, s.a % 256,
   s.b / 2 ^ 24 % 256, s.b / 2 ^ 16 % 256, s.b / 2 ^ 8 % 256, s.b % 256,
   s.c / 2 ^ 24 % 256, s.c / 2 ^ 16 % 256, s.c / 2 ^ 8 % 256, s.c % 256,
   s.d / 2 ^ 24 % 256, s.d / 2 ^ 16 % 256, s.d / 2 ^ 8 % 256, s.d % 256,
   s.e / 2 ^ 24 % 256, s.e / 2 ^ 16 % 256, s.e / 2 ^ 8 % 256, s.e % 256,
   s.f / 2 ^ 24 % 256, s.f / 2 ^ 16 % 256, s.f / 2 ^ 8 % 256, s.f % 256,
   s.g / 2 ^ 24 % 256, s.g / 2 ^ 16 % 256, s.g / 2 ^ 8 % 256, s.g % 256,
   s.h / 2 ^ 24 % 256, s.h / 2 ^ 16 % 256, s.h / 2 ^ 8 % 256, s.h % 256]

/-- Lowercase hexadecimal digit character of a value below 16. -/
def hexDigitChar (n : Nat) : Char :=
  if n < 10 then Char.ofNat (48 + n) else Char.ofNat (87 + n)

/-- The two hexadecimal digit values of a byte, high nibble first. -/
def byteNibbles (b : Nat) : List Nat := [b / 16 % 16, b % 16]

/-- The character list of the lowercase hexadecimal rendering of the SHA-256
digest of a byte list. -/
def sha256HexChars (msg : List Nat) : List Char :=
  ((sha256Bytes msg).flatMap byteNibbles).map hexDigitChar

/-- The lowercase hexadecimal rendering of the SHA-256 digest of a byte
list. -/
def sha256Hex (msg : List Nat) : String := String.mk (sha256HexChars msg)

/-- The UTF-8 encoding of one character. -/
def utf8CharBytes (c : Char) : List Nat :=
  let v := c.toNat
  if v < 128 then [v]
  else if v < 2048 then [192 + v / 64, 128 + v % 64]
  else if v < 65536 then [224 + v / 4096, 128 + v / 64 % 64, 128 + v % 64]
  else [240 + v / 262144, 128 + v / 4096 % 64, 128 + v / 64 % 64, 128 + v % 64]

/-- The UTF-8 byte sequence of a string. -/
def utf8Encode (s : String) : List Nat := s.data.flatMap utf8CharBytes

/-- Configuration record of the parameterized implementation (interface
`RooSearchConfig`). -/
structure RooSearchConfig where
  qdrantClientUrl : String
  embeddingServiceUrl : String
  embeddingModel : String
  searchScoreThreshold : ℚ
  searchLimit : Nat
  hnswEf : Nat
  hnswExact : Bool
  payloadIncludeFields : List String
  hashLength : Nat
  deriving Repr

/-- The constant `ROO_SEARCH_CONFIG` of the parameterized implementation,
with its literal field values. -/
def ROO_SEARCH_CONFIG : RooSearchConfig :=
  { qdrantClientUrl := "http://localhost:6333"
    embeddingServiceUrl := "http://localhost:11434/api/embed"
    embeddingModel := "nomic-embed-text"
    searchScoreThreshold := 0.40
    searchLimit := 50
    hnswEf := 128
    hnswExact := false
    payloadIncludeFields := ["filePath", "codeChunk", "startLine", "endLine", "pathSegments"]
    hashLength := 16 }

/-- Source function `getWorkspaceVectorStoreName` of the parameterized
implementation: the SHA-256 digest of the workspace path (the crypto library
hashes the UTF-8 bytes of the string and renders the digest as lowercase
hexadecimal), truncated by substring to the configured hash length 16 and
prefixed with the literal ws and a dash. -/
def getWorkspaceVectorStoreName (workspacePath : String) : String :=
  "ws-" ++
    String.mk ((sha256HexChars (utf8Encode workspacePath)).take ROO_SEARCH_CONFIG.hashLength)

/-!
The parameterized pipeline. Its source file shares the interfaces and all
the stage function texts with the hardcoded file; the functions that are
character for character identical in both files reuse the shared
denotations defined above (`isValidResult`, `sortByScoreDesc`,
`resultCountNoun`, `toFixed3`, `jsTrim`, `renderLineNum`, `mapExcept`,
`trimTypeErrorMsg`), and each function of the file is embedded as its own
definition below.
-/

namespace Roosearch

/-- Source function `createEmbeddings` of the parameterized file: identical
to the hardcoded implementation except for an added console log before the
rethrow, which has no effect on the returned value. -/
def createEmbeddings : FetchOutcome → Except JsThrown EmbeddingResponse
  | .success body => .ok body
  | .httpError statusText =>
      .error (.error ("Embedding creation failed: Failed to create embeddings: " ++ statusText))
  | .threw e => .error (.error ("Embedding creation failed: " ++ jsMessage e))

/-- The request object literal built inside the parameterized `searchQdrant`,
every field drawn from `ROO_SEARCH_CONFIG`. -/
def searchRequest (embedding : EmbeddingResponse) : SearchRequest :=
  { query := embedding.embeddings.head?
    filter := none
    score_threshold := ROO_SEARCH_CONFIG.searchScoreThreshold
    limit := ROO_SEARCH_CONFIG.searchLimit
    hnsw_ef := ROO_SEARCH_CONFIG.hnswEf
    exact := ROO_SEARCH_CONFIG.hnswExact
    with_payload_include := ROO_SEARCH_CONFIG.payloadIncludeFields }

/-- Source function `searchQdrant` of the parameterized file: takes the
workspace path and queries the collection named after it; any thrown value
is rewrapped by the catch block into an Error whose message starts with
Search operation failed. -/
def searchQdrant (embedding : EmbeddingResponse) (workspacePath : String)
    (db : QdrantDb) : Except JsThrown (List VectorStoreSearchResult) :=
  match db (getWorkspaceVectorStoreName workspacePath) (searchRequest embedding) with
  | .ok points => .ok points
  | .error e => .error (.error ("Search operation failed: " ++ jsMessage e))

/-- Source function `filterValidResults` of the parameterized file: the
isValid conjunction is the same six part truthiness test as in the hardcoded
file, bound to a local constant before being returned. -/
def filterValidResults (results : List VectorStoreSearchResult) :
    List VectorStoreSearchResult :=
  results.filter fun result => isValidResult result

/-- Source function `transformSearchResult` of the parameterized file,
identical to the hardcoded one, including the TypeError raised when trim is
read off an absent codeChunk. -/
def transformSearchResult (result : VectorStoreSearchResult) :
    Except JsThrown (Option SearchResult) :=
  match result.payload with
  | none => .ok none
  | some p =>
      match p.filePath with
      | none => .ok none
      | some fp =>
          match p.codeChunk with
          | none => .error (.error trimTypeErrorMsg)
          | some cc =>
              .ok (some { filePath := fp, score := result.score,
                          startLine := p.startLine, endLine := p.endLine,
                          codeChunk := jsTrim cc })

/-- Source function `transformResults` of the parameterized file: filter, map
the transformation, drop the null entries. -/
def transformResults (results : List VectorStoreSearchResult) :
    Except JsThrown (List SearchResult) :=
  match mapExcept transformSearchResult (filterValidResults results) with
  | .error e => .error e
  | .ok transformed => .ok (transformed.filterMap id)

/-- Source function `formatSearchResult` of the parameterized file: the same
template literal as the hardcoded one. -/
def formatSearchResult (r : SearchResult) : String :=
  "File: " ++ r.filePath ++ "\nScore: " ++ toFixed3 r.score ++ "\nLines: " ++
    renderLineNum r.startLine ++ "-" ++ renderLineNum r.endLine ++
    "\nCode:\n```\n" ++ r.codeChunk ++ "\n```\n"

/-- Source function `formatResults` of the parameterized file: the same empty
case, the same stable sort on a copy by the comparator on descending scores,
and the same preamble, blocks and trailer as the hardcoded one. -/
def formatResults (results : List SearchResult) (query : String) : String :=
  if results.length = 0 then
    "Query: \"" ++ query ++ "\"\n\nNo results found."
  else
    "Query: \"" ++ query ++ "\"\n\nFound " ++ toString results.length ++
      " result" ++ resultCountNoun results.length ++ ":\n\n" ++
      String.intercalate "\n\n" ((sortByScoreDesc results).map formatSearchResult) ++
      "\n\n---\nSearch completed with " ++ toString results.length ++
      " result" ++ resultCountNoun results.length ++ "."

/-- Source function `executeSearchPipeline` of the parameterized file: takes
the workspace path alongside the query, passes it to the search stage, and
converts any thrown value into the same error text as the hardcoded one (its
catch block additionally logs to the console, with no effect on the returned
value). -/
def executeSearchPipeline (query workspacePath : String)
    (fetchOutcome : FetchOutcome) (db : QdrantDb) : String :=
  match createEmbeddings fetchOutcome with
  | .error e => "Error executing search: " ++ jsMessage e
  | .ok embeddingResponse =>
      match searchQdrant embeddingResponse workspacePath db with
      | .error e => "Error executing search: " ++ jsMessage e
      | .ok searchResults =>
          match transformResults searchResults with
          | .error e => "Error executing search: " ++ jsMessage e
          | .ok transformedResults => formatResults transformedResults query

end Roosearch

/-!
Claim side predicates and concrete sample inputs.
-/

/-- Truthiness of an optional string, stated as a proposition: a present,
nonempty value. -/
def TruthyStringP (o : Option String) : Prop := ∃ s, o = some s ∧ s ≠ ""

/-- Truthiness of an optional number, stated as a proposition: a present,
nonzero value. -/
def TruthyIntP (o : Option Int) : Prop := ∃ n, o = some n ∧ n ≠ 0

/-- A raw point is valid exactly when its payload is present and the four
required fields are truthy; written from the words of the claim, to be
compared with the boolean test of the source. -/
def ValidPointP (r : VectorStoreSearchResult) : Prop :=
  ∃ p, r.payload = some p ∧ TruthyStringP p.filePath ∧ TruthyIntP p.startLine ∧
    TruthyIntP p.endLine ∧ TruthyStringP p.codeChunk

/-- Truthiness of an optional string is decidable. -/
instance instDecidableTruthyStringP (o : Option String) : Decidable (TruthyStringP o) :=
  match o with
  | none => isFalse (by rintro ⟨s, hs, _⟩; exact Option.noConfusion hs)
  | some s =>
      if h : s = "" then
        isFalse (by rintro ⟨t, ht, hne⟩; cases ht; exact hne h)
      else isTrue ⟨s, rfl, h⟩

/-- Truthiness of an optional number is decidable. -/
instance instDecidableTruthyIntP (o : Option Int) : Decidable (TruthyIntP o) :=
  match o with
  | none => isFalse (by rintro ⟨n, hn, _⟩; exact Option.noConfusion hn)
  | some n =>
      if h : n = 0 then
        isFalse (by rintro ⟨m, hm, hne⟩; cases hm; exact hne h)
      else isTrue ⟨n, rfl, h⟩

/-- Validity of a raw point is decidable. -/
instance instDecidableValidPointP (r : VectorStoreSearchResult) :
    Decidable (ValidPointP r) :=
  match hp : r.payload with
  | none => isFalse (by rintro ⟨p, hps, _⟩; rw [hp] at hps; exact Option.noConfusion hps)
  | some p =>
      decidable_of_iff
        (TruthyStringP p.filePath ∧ TruthyIntP p.startLine ∧ TruthyIntP p.endLine ∧
          TruthyStringP p.codeChunk)
        ⟨fun h => ⟨p, hp, h⟩, by rintro ⟨q, hq, h⟩; rw [hp] at hq; cases hq; exact h⟩

/-- Total projection of a raw point into the normalized record; on points
passing `isValidResult` it agrees with `transformSearchResult`. -/
def projectValid (r : VectorStoreSearchResult) : SearchResult :=
  match r.payload with
  | none => { filePath := "", score := r.score, startLine := none,
              endLine := none, codeChunk := "" }
  | some p =>
      { filePath := p.filePath.getD "", score := r.score,
        startLine := p.startLine, endLine := p.endLine,
        codeChunk := jsTrim (p.codeChunk.getD "") }

/-- The first sixteen hexadecimal digit values of the SHA-256 digest of the
UTF-8 bytes of a path: the 64 bit truncation that determines the collection
name. -/
def digestPrefixNibbles (p : String) : List Nat :=
  ((sha256Bytes (utf8Encode p)).take 8).flatMap byteNibbles

/-- Little endian base sixteen encoding of a digit list. -/
def nibbleEncode (l : List Nat) : Nat :=
  l.foldr (fun d acc => d + 16 * acc) 0

/-- Numeric value of a hexadecimal digit character. -/
def hexVal (c : Char) : Nat :=
  if c.toNat ≤ 57 then c.toNat - 48 else c.toNat - 87

/-- A family of pairwise distinct workspace paths indexed by length. -/
def pathOfNat (n : Nat) : String := String.mk (List.replicate n 'a')

/-- A normalized result with a given score and fixed remaining fields, used
for the concrete sorting scenario of the spec. -/
def mkScored (q : ℚ) : SearchResult :=
  { filePath := "f", score := q, startLine := some 1, endLine := some 2,
    codeChunk := "c" }

/-- The concrete input of the sorting scenario: scores 0.9, 0.3, 0.7 in input
order. -/
def exampleResults : List SearchResult :=
  [mkScored 0.9, mkScored 0.3, mkScored 0.7]

/-- A point whose payload carries startLine zero and is otherwise fully
populated. -/
def pointZeroStartLine : VectorStoreSearchResult :=
  { id := 1, score := 1,
    payload := some { filePath := some "a.ts", codeChunk := some "x",
                      startLine := some 0, endLine := some 20 } }

/-- A point whose payload carries an empty filePath and is otherwise fully
populated. -/
def pointEmptyFilePath : VectorStoreSearchResult :=
  { id := 2, score := 1,
    payload := some { filePath := some "", codeChunk := some "x",
                      startLine := some 10, endLine := some 20 } }

/-- A point whose payload is missing codeChunk and is otherwise fully
populated. -/
def pointMissingCodeChunk : VectorStoreSearchResult :=
  { id := 3, score := 1,
    payload := some { filePath := some "a.ts", codeChunk := none,
                      startLine := some 10, endLine := some 20 } }

/-- A fully valid point, with whitespace around its code chunk. -/
def validPoint : VectorStoreSearchResult :=
  { id := 4, score := 0.8,
    payload := some { filePath := some "a.ts", codeChunk := some "  foo()  ",
                      startLine := some 10, endLine := some 20 } }

/-- A database that answers every query with no points. -/
def dbEmpty : QdrantDb := fun _ _ => .ok []

/-- A database whose query method throws a non-Error value. -/
def dbThrowNonError : QdrantDb := fun _ _ => .error .nonError

/-- A sample embedding service response with a single vector. -/
def sampleEmbeddingResponse : EmbeddingResponse :=
  { embeddings := [[0.1, 0.2]] }

/-!
Theorems.
-/

/-- C6: for every query string q, formatting an empty result sequence returns
exactly the query line in quotes followed by two newlines and the text
No results found, and nothing else; in particular at the query x it returns
exactly that literal. -/
theorem formatResults_empty :
    (∀ query : String,
      formatResults [] query = "Query: \"" ++ query ++ "\"\n\nNo results found.")
    ∧ formatResults [] "x" = "Query: \"x\"\n\nNo results found." :=
  ⟨fun _ => rfl, rfl⟩

/-- C7: the embed operation returns the embedding service response unchanged,
and the query vector that the pipeline passes to the vector search is
exactly the first inner sequence of the embeddings field of that
response. -/
theorem createEmbeddings_first_vector (resp : EmbeddingResponse) :
    createEmbeddings (FetchOutcome.success resp) = Except.ok resp
    ∧ (searchRequest resp).query = resp.embeddings.head?
    ∧ ∀ v rest, resp.embeddings = v :: rest → (searchRequest resp).query = some v := by
  refine ⟨rfl, rfl, ?_⟩
  intro v rest h
  simp [searchRequest, h]

/-- Witness for C7 at a concrete response with a single vector. -/
theorem createEmbeddings_first_vector_witness :
    createEmbeddings (FetchOutcome.success sampleEmbeddingResponse) =
      Except.ok sampleEmbeddingResponse
    ∧ (searchRequest sampleEmbeddingResponse).query = some [0.1, 0.2] :=
  ⟨(createEmbeddings_first_vector sampleEmbeddingResponse).1,
   (createEmbeddings_first_vector sampleEmbeddingResponse).2.2 [0.1, 0.2] [] rfl⟩

/-- C1: the pipeline always returns a string; whenever a stage signals a
thrown value (the embedding call, the vector search, or the transformation
after them) the returned string is exactly the literal Error executing
search followed by the message of the thrown value, with Unknown error
standing in for a non-Error thrown value through `jsMessage`; an embedding
service HTTP failure yields a result beginning with the literal Error
executing search colon Embedding creation failed. -/
theorem executeSearchPipeline_error_text (query : String)
    (fetchOutcome : FetchOutcome) (db : QdrantDb) :
    (∀ statusText, fetchOutcome = FetchOutcome.httpError statusText →
      executeSearchPipeline query fetchOutcome db =
        "Error executing search: Embedding creation failed" ++
          ": Failed to create embeddings: " ++ statusText)
    ∧ (∀ e, createEmbeddings fetchOutcome = .error e →
        executeSearchPipeline query fetchOutcome db =
          "Error executing search: " ++ jsMessage e)
    ∧ (∀ emb e, createEmbeddings fetchOutcome = .ok emb →
        searchQdrant emb db = .error e →
        executeSearchPipeline query fetchOutcome db =
          "Error executing search: " ++ jsMessage e)
    ∧ (∀ emb pts e, createEmbeddings fetchOutcome = .ok emb →
        searchQdrant emb db = .ok pts → transformResults pts = .error e →
        executeSearchPipeline query fetchOutcome db =
          "Error executing search: " ++ jsMessage e) := by
  refine ⟨?_, ?_, ?_, ?_⟩
  · intro st h; subst h; rfl
  · intro e h; simp [executeSearchPipeline, h]
  · intro emb e h1 h2; simp [executeSearchPipeline, h1, h2]
  · intro emb pts e h1 h2 h3; simp [executeSearchPipeline, h1, h2, h3]

/-- Witness for C1: a concrete HTTP failure of the embedding service and a
concrete non-Error value thrown by the database client. -/
theorem executeSearchPipeline_error_text_witness :
    executeSearchPipeline "q" (FetchOutcome.httpError "Internal Server Error") dbEmpty =
      "Error executing search: Embedding creation failed" ++
        ": Failed to create embeddings: " ++ "Internal Server Error"
    ∧ executeSearchPipeline "q" (FetchOutcome.success sampleEmbeddingResponse) dbThrowNonError =
        "Error executing search: " ++
          jsMessage (JsThrown.error "Search operation failed: Unknown error") :=
  ⟨(executeSearchPipeline_error_text "q" _ dbEmpty).1 "Internal Server Error" rfl,
   (executeSearchPipeline_error_text "q" _ dbThrowNonError).2.2.1 sampleEmbeddingResponse
     (JsThrown.error "Search operation failed: Unknown error") rfl rfl⟩

/-- The boolean validity test of the source agrees with the propositional
reading of the claim. -/
lemma isValidResult_iff (r : VectorStoreSearchResult) :
    isValidResult r = true ↔ ValidPointP r := by
  unfold isValidResult ValidPointP TruthyStringP TruthyIntP
  cases hp : r.payload with
  | none => simp
  | some p =>
      obtain ⟨fp, cc, sl, el⟩ := p
      cases fp <;> cases cc <;> cases sl <;> cases el <;>
        simp [truthyString, truthyInt, and_assoc]

/-- Deciding the claim side validity proposition agrees with the boolean
test of the source. -/
lemma decide_ValidPointP (r : VectorStoreSearchResult) :
    decide (ValidPointP r) = isValidResult r := by
  by_cases h : ValidPointP r
  · rw [decide_eq_true h, (isValidResult_iff r).mpr h]
  · rw [decide_eq_false h]
    cases hc : isValidResult r with
    | false => rfl
    | true => exact absurd ((isValidResult_iff r).mp hc) h

/-- C3: a point is kept by the filter exactly when it belongs to the input
and its payload is present with truthy filePath, startLine, endLine and
codeChunk; the kept points form a subsequence of the input; the four
concrete edge cases of the claim (startLine zero, empty filePath, missing
codeChunk, fully valid) behave as stated; and the whole output list is
exactly the input filtered by the validity proposition, so multiplicities
are preserved as well. -/
theorem filterValidResults_spec :
    (∀ (results : List VectorStoreSearchResult) (r : VectorStoreSearchResult),
      r ∈ filterValidResults results ↔ r ∈ results ∧ ValidPointP r)
    ∧ (∀ results, (filterValidResults results).Sublist results)
    ∧ filterValidResults [pointZeroStartLine] = []
    ∧ filterValidResults [pointEmptyFilePath] = []
    ∧ filterValidResults [pointMissingCodeChunk] = []
    ∧ filterValidResults [validPoint] = [validPoint]
    ∧ (∀ results, filterValidResults results =
        results.filter fun r => decide (ValidPointP r)) := by
  refine ⟨?_, ?_, rfl, rfl, rfl, rfl, ?_⟩
  · intro results r
    rw [filterValidResults, List.mem_filter, isValidResult_iff]
  · intro results
    exact List.filter_sublist _
  · intro results
    rw [filterValidResults]
    exact List.filter_congr fun r _ => (decide_ValidPointP r).symm

/-- On a point passing the validity test, the transformation returns the
total projection. -/
lemma transformSearchResult_of_valid (r : VectorStoreSearchResult)
    (h : isValidResult r = true) :
    transformSearchResult r = .ok (some (projectValid r)) := by
  cases hp : r.payload with
  | none => simp [isValidResult, hp] at h
  | some p =>
      obtain ⟨fp, cc, sl, el⟩ := p
      cases fp with
      | none => simp [isValidResult, hp, truthyString] at h
      | some s =>
          cases cc with
          | none => simp [isValidResult, hp, truthyString, truthyInt] at h
          | some c => simp [transformSearchResult, projectValid, hp]

/-- The effectful map succeeds on a list of valid points and returns the
projections in order. -/
lemma mapExcept_valid (l : List VectorStoreSearchResult)
    (h : ∀ r ∈ l, isValidResult r = true) :
    mapExcept transformSearchResult l = .ok (l.map fun r => some (projectValid r)) := by
  induction l with
  | nil => rfl
  | cons x xs ih =>
      have hx := transformSearchResult_of_valid x (h x (List.mem_cons_self x xs))
      have hxs := ih fun r hr => h r (List.mem_cons_of_mem x hr)
      simp [mapExcept, hx, hxs]

/-- Dropping absent values from a list of present values is the plain map. -/
lemma filterMap_id_map_some {α β : Type} (f : α → β) (l : List α) :
    (l.map fun x => some (f x)).filterMap id = l.map f := by
  induction l with
  | nil => rfl
  | cons x xs ih => simp [ih]

/-- C9: on the output of the filter the null branch of the transformation is
unreachable, so the transformation never throws and returns exactly the
filtered points mapped in order to normalized results; the output length
equals the number of valid points. -/
theorem transformResults_total_on_filtered (results : List VectorStoreSearchResult) :
    transformResults results = .ok ((filterValidResults results).map projectValid)
    ∧ ((filterValidResults results).map projectValid).length =
        (filterValidResults results).length := by
  constructor
  · have hvalid : ∀ r ∈ filterValidResults results, isValidResult r = true :=
      fun r hr => List.of_mem_filter hr
    rw [transformResults, mapExcept_valid _ hvalid]
    exact congrArg Except.ok (filterMap_id_map_some projectValid (filterValidResults results))
  · exact List.length_map _ _

/-- First element of the output of dropWhile never satisfies the dropped
predicate. -/
lemma head?_dropWhile_not_true {α : Type} (p : α → Bool) (l : List α) :
    ∀ c, (l.dropWhile p).head? = some c → p c = false := by
  induction l with
  | nil => intro c h; simp at h
  | cons x xs ih =>
      intro c h
      rw [List.dropWhile_cons] at h
      by_cases hx : p x = true
      · rw [if_pos hx] at h
        exact ih c h
      · rw [if_neg hx] at h
        obtain rfl : x = c := by simpa using h
        simpa using hx

/-- dropWhile only removes a leading segment, so a nonempty output keeps the
last element of the input. -/
lemma getLast?_dropWhile {α : Type} (p : α → Bool) (l : List α)
    (h : l.dropWhile p ≠ []) : (l.dropWhile p).getLast? = l.getLast? := by
  induction l with
  | nil => exact absurd rfl h
  | cons x xs ih =>
      rw [List.dropWhile_cons] at h ⊢
      by_cases hx : p x = true
      · rw [if_pos hx] at h ⊢
        have hxs : xs ≠ [] := by
          intro he
          subst he
          simp at h
        obtain ⟨y, ys, rfl⟩ := List.exists_cons_of_ne_nil hxs
        rw [ih h, List.getLast?_cons_cons]
      · rw [if_neg hx] at h ⊢

/-- The first character of a trimmed character list is never whitespace. -/
lemma trimChars_head_not_ws (l : List Char) :
    ∀ c, (trimChars l).head? = some c → isJsWhitespace c = false := by
  intro c h
  unfold trimChars at h
  rw [List.head?_reverse] at h
  have hne : (((l.dropWhile isJsWhitespace).reverse).dropWhile isJsWhitespace) ≠ [] := by
    intro he
    rw [he] at h
    simp at h
  rw [getLast?_dropWhile _ _ hne, List.getLast?_reverse] at h
  exact head?_dropWhile_not_true _ _ c h

/-- The last character of a trimmed character list is never whitespace. -/
lemma trimChars_getLast_not_ws (l : List Char) :
    ∀ c, (trimChars l).getLast? = some c → isJsWhitespace c = false := by
  intro c h
  unfold trimChars at h
  rw [List.getLast?_reverse] at h
  exact head?_dropWhile_not_true _ _ c h

/-- C5: on a raw point whose payload is present and carries filePath and a
codeChunk value, the transformation returns the normalized record copying
filePath, score, startLine and endLine verbatim and stripping surrounding
whitespace off the code chunk, whose first and last characters are therefore
never whitespace. -/
theorem transformSearchResult_spec (r : VectorStoreSearchResult) (p : Payload)
    (fp cc : String) (hp : r.payload = some p) (hfp : p.filePath = some fp)
    (hcc : p.codeChunk = some cc) :
    transformSearchResult r =
      .ok (some { filePath := fp, score := r.score, startLine := p.startLine,
                  endLine := p.endLine, codeChunk := jsTrim cc })
    ∧ (∀ c, (jsTrim cc).data.head? = some c → isJsWhitespace c = false)
    ∧ (∀ c, (jsTrim cc).data.getLast? = some c → isJsWhitespace c = false) := by
  refine ⟨?_, ?_, ?_⟩
  · simp [transformSearchResult, hp, hfp, hcc]
  · intro c h
    exact trimChars_head_not_ws cc.data c h
  · intro c h
    exact trimChars_getLast_not_ws cc.data c h

/-- Witness for C5 at a concrete point whose code chunk carries surrounding
whitespace. -/
theorem transformSearchResult_spec_witness :
    transformSearchResult validPoint =
      .ok (some { filePath := "a.ts", score := 0.8, startLine := some 10,
                  endLine := some 20, codeChunk := jsTrim "  foo()  " })
    ∧ jsTrim "  foo()  " = "foo()" :=
  ⟨(transformSearchResult_spec validPoint
      ⟨some "a.ts", some "  foo()  ", some 10, some 20⟩
      "a.ts" "  foo()  " rfl rfl rfl).1, rfl⟩

/-- Stable insertion permutes the element onto the list. -/
lemma perm_insertDesc (x : SearchResult) (l : List SearchResult) :
    (insertDesc x l).Perm (x :: l) := by
  induction l with
  | nil => exact List.Perm.refl _
  | cons y ys ih =>
      rw [insertDesc]
      by_cases hc : y.score ≤ x.score
      · rw [if_pos hc]
      · rw [if_neg hc]
        exact (ih.cons y).trans (List.Perm.swap x y ys)

/-- Stable insertion preserves descending sortedness. -/
lemma pairwise_insertDesc (x : SearchResult) (l : List SearchResult)
    (h : List.Pairwise (fun a b => b.score ≤ a.score) l) :
    List.Pairwise (fun a b => b.score ≤ a.score) (insertDesc x l) := by
  induction l with
  | nil => simp [insertDesc]
  | cons y ys ih =>
      rw [insertDesc]
      obtain ⟨hy, hys⟩ := List.pairwise_cons.mp h
      by_cases hc : y.score ≤ x.score
      · rw [if_pos hc]
        refine List.Pairwise.cons ?_ h
        intro z hz
        rcases List.mem_cons.mp hz with rfl | hz'
        · exact hc
        · exact le_trans (hy z hz') hc
      · rw [if_neg hc]
        refine List.Pairwise.cons ?_ (ih hys)
        intro z hz
        have hmem := (perm_insertDesc x ys).mem_iff.mp hz
        rcases List.mem_cons.mp hmem with rfl | hz'
        · exact le_of_lt (lt_of_not_le hc)
        · exact hy z hz'

/-- Stable insertion is stable: the elements of any given score keep their
relative order, the inserted element coming first exactly when it carries
that score. -/
lemma filter_score_insertDesc (x : SearchResult) (l : List SearchResult) (s : ℚ) :
    (insertDesc x l).filter (fun r => r.score == s) =
      if x.score == s then x :: l.filter (fun r => r.score == s)
      else l.filter (fun r => r.score == s) := by
  induction l with
  | nil => simp [insertDesc, List.filter_cons]
  | cons y ys ih =>
      by_cases hc : y.score ≤ x.score
      · simp only [insertDesc, if_pos hc, List.filter_cons]
      · simp only [insertDesc, if_neg hc, List.filter_cons, ih]
        by_cases hx : (x.score == s) = true
        · have hxeq : x.score = s := beq_iff_eq.mp hx
          have hy : (y.score == s) = false := by
            refine beq_eq_false_iff_ne.mpr ?_
            intro he
            exact hc (le_of_eq (he.trans hxeq.symm))
          simp [hx, hy]
        · simp [hx]

/-- The sort of the source is a permutation of its input. -/
lemma sortByScoreDesc_perm (l : List SearchResult) : (sortByScoreDesc l).Perm l := by
  induction l with
  | nil => exact List.Perm.refl _
  | cons x xs ih =>
      exact (perm_insertDesc x (sortByScoreDesc xs)).trans (ih.cons x)

/-- The sort of the source yields pairwise descending scores. -/
lemma sortByScoreDesc_sorted (l : List SearchResult) :
    List.Pairwise (fun a b => b.score ≤ a.score) (sortByScoreDesc l) := by
  induction l with
  | nil => simp [sortByScoreDesc]
  | cons x xs ih => exact pairwise_insertDesc x (sortByScoreDesc xs) ih

/-- The sort of the source is stable: elements of equal score keep their
relative input order. -/
lemma sortByScoreDesc_filter_score (l : List SearchResult) (s : ℚ) :
    (sortByScoreDesc l).filter (fun r => r.score == s) =
      l.filter (fun r => r.score == s) := by
  induction l with
  | nil => rfl
  | cons x xs ih =>
      simp only [sortByScoreDesc, filter_score_insertDesc, ih, List.filter_cons]

/-- C4: on a nonempty input the rendered blocks follow the sorted order of
descending scores, obtained by a stable sort of a copy of the input
(pairwise descending, a permutation of the input, elements of equal score in
input order), and on the concrete scenario with input scores 0.9, 0.3, 0.7
the block order is 0.9, 0.7, 0.3. -/
theorem formatResults_sorted (results : List SearchResult) (query : String)
    (hne : results ≠ []) :
    List.Pairwise (fun a b => b.score ≤ a.score) (sortByScoreDesc results)
    ∧ (sortByScoreDesc results).Perm results
    ∧ (∀ s : ℚ, (sortByScoreDesc results).filter (fun r => r.score == s) =
        results.filter (fun r => r.score == s))
    ∧ formatResults results query =
        "Query: \"" ++ query ++ "\"\n\nFound " ++ toString results.length ++
          " result" ++ resultCountNoun results.length ++ ":\n\n" ++
          String.intercalate "\n\n" ((sortByScoreDesc results).map formatSearchResult) ++
          "\n\n---\nSearch completed with " ++ toString results.length ++
          " result" ++ resultCountNoun results.length ++ "."
    ∧ (sortByScoreDesc exampleResults).map SearchResult.score = [0.9, 0.7, 0.3] := by
  refine ⟨sortByScoreDesc_sorted results, sortByScoreDesc_perm results,
    fun s => sortByScoreDesc_filter_score results s, ?_, ?_⟩
  · rw [formatResults, if_neg (fun h => hne (List.length_eq_zero.mp h))]
  · norm_num [exampleResults, mkScored, sortByScoreDesc, insertDesc]

/-- Witness for C4 at the concrete scenario of the spec. -/
theorem formatResults_sorted_witness :
    (sortByScoreDesc exampleResults).map SearchResult.score = [0.9, 0.7, 0.3] :=
  (formatResults_sorted exampleResults "x" (by simp [exampleResults])).2.2.2.2

/-- C2: the collection name is the literal prefix ws and a dash followed by
exactly the first 16 characters of the lowercase hexadecimal SHA-256 digest
of the UTF-8 bytes of the path; the digest has 64 hexadecimal characters,
the name has 19 characters, and the function is deterministic. -/
theorem getWorkspaceVectorStoreName_spec (workspacePath : String) :
    getWorkspaceVectorStoreName workspacePath =
      "ws-" ++ String.mk ((sha256Hex (utf8Encode workspacePath)).data.take 16)
    ∧ (sha256Hex (utf8Encode workspacePath)).data.length = 64
    ∧ (getWorkspaceVectorStoreName workspacePath).length = 19
    ∧ ∀ p2, p2 = workspacePath →
        getWorkspaceVectorStoreName p2 = getWorkspaceVectorStoreName workspacePath := by
  refine ⟨rfl, rfl, rfl, ?_⟩
  intro p2 h
  rw [h]

/-- Witness for C2 at a concrete workspace path. -/
theorem getWorkspaceVectorStoreName_spec_witness :
    (getWorkspaceVectorStoreName "/home/user/project").length = 19
    ∧ getWorkspaceVectorStoreName "/home/user/project" =
        getWorkspaceVectorStoreName "/home/user/project" :=
  ⟨(getWorkspaceVectorStoreName_spec "/home/user/project").2.2.1,
   (getWorkspaceVectorStoreName_spec "/home/user/project").2.2.2
     "/home/user/project" rfl⟩

set_option maxRecDepth 10000 in
/-- The embedded hash agrees with the published SHA-256 value on the standard
three byte test vector. -/
theorem sha256Hex_testVector_abc :
    sha256Hex (utf8Encode "abc") =
      "ba7816bf8f01cfea414140de5dae2223b00361a396177a9cb410ff61f20015ad" := by
  rfl

set_option maxRecDepth 10000 in
/-- The embedded hash agrees with the published SHA-256 value on the empty
message. -/
theorem sha256Hex_testVector_empty :
    sha256Hex (utf8Encode "") =
      "e3b0c44298fc1c149afbf4c8996fb92427ae41e4649b934ca495991b7852b855" := by
  rfl

set_option maxRecDepth 10000 in
/-- Concrete collection name of the one character workspace path x. -/
theorem getWorkspaceVectorStoreName_concrete :
    getWorkspaceVectorStoreName "x" = "ws-2d711642b726b044" := by
  rfl

/-- The collection name is determined by the first sixteen hexadecimal digit
values of the digest. -/
lemma getWorkspaceVectorStoreName_eq_nibbles (p : String) :
    getWorkspaceVectorStoreName p =
      "ws-" ++ String.mk ((digestPrefixNibbles p).map hexDigitChar) := rfl

/-- Hexadecimal digit values are below sixteen. -/
lemma mem_flatMap_byteNibbles_lt (bytes : List Nat) :
    ∀ d ∈ bytes.flatMap byteNibbles, d < 16 := by
  intro d hd
  obtain ⟨b, _, hdb⟩ := List.mem_flatMap.mp hd
  simp only [byteNibbles, List.mem_cons, List.mem_singleton] at hdb
  rcases hdb with rfl | rfl | h
  · exact Nat.mod_lt _ (by norm_num)
  · exact Nat.mod_lt _ (by norm_num)
  · exact absurd h (List.not_mem_nil d)

/-- The truncated digest digits are below sixteen. -/
lemma digestPrefixNibbles_lt (p : String) : ∀ d ∈ digestPrefixNibbles p, d < 16 :=
  mem_flatMap_byteNibbles_lt _

/-- The base sixteen value of a digit list is below sixteen to the length. -/
lemma nibbleEncode_lt (l : List Nat) (h : ∀ d ∈ l, d < 16) :
    nibbleEncode l < 16 ^ l.length := by
  induction l with
  | nil => simp [nibbleEncode]
  | cons d ds ih =>
      have hd : d < 16 := h d (List.mem_cons_self d ds)
      have hds := ih fun x hx => h x (List.mem_cons_of_mem d hx)
      have hde : nibbleEncode (d :: ds) = d + 16 * nibbleEncode ds := rfl
      rw [hde, List.length_cons, pow_succ]
      calc d + 16 * nibbleEncode ds < 16 * (nibbleEncode ds + 1) := by omega
        _ ≤ 16 * 16 ^ ds.length := Nat.mul_le_mul_left 16 hds
        _ = 16 ^ ds.length * 16 := Nat.mul_comm _ _

/-- The base sixteen value determines the digit list among lists of equal
length whose digits are below sixteen. -/
lemma nibbleEncode_inj (l1 : List Nat) (l2 : List Nat) (hlen : l1.length = l2.length)
    (h1 : ∀ d ∈ l1, d < 16) (h2 : ∀ d ∈ l2, d < 16)
    (h : nibbleEncode l1 = nibbleEncode l2) : l1 = l2 := by
  induction l1 generalizing l2 with
  | nil =>
      cases l2 with
      | nil => rfl
      | cons e es => simp at hlen
  | cons d ds ih =>
      cases l2 with
      | nil => simp at hlen
      | cons e es =>
          have hd : d < 16 := h1 d (List.mem_cons_self _ _)
          have he : e < 16 := h2 e (List.mem_cons_self _ _)
          have heq : d + 16 * nibbleEncode ds = e + 16 * nibbleEncode es := h
          have hde : d = e ∧ nibbleEncode ds = nibbleEncode es := by omega
          rw [hde.1, ih es (by simpa using hlen)
            (fun x hx => h1 x (List.mem_cons_of_mem _ hx))
            (fun x hx => h2 x (List.mem_cons_of_mem _ hx)) hde.2]

/-- Decoding inverts the hexadecimal digit character of a value below
sixteen. -/
lemma hexVal_hexDigitChar (d : Nat) (hd : d < 16) : hexVal (hexDigitChar d) = d := by
  interval_cases d <;> rfl

/-- The hexadecimal rendering is injective on digit values below sixteen. -/
lemma map_hexDigitChar_inj (l1 : List Nat) (l2 : List Nat)
    (h1 : ∀ d ∈ l1, d < 16) (h2 : ∀ d ∈ l2, d < 16)
    (h : l1.map hexDigitChar = l2.map hexDigitChar) : l1 = l2 := by
  induction l1 generalizing l2 with
  | nil =>
      cases l2 with
      | nil => rfl
      | cons e es => simp at h
  | cons d ds ih =>
      cases l2 with
      | nil => simp at h
      | cons e es =>
          simp only [List.map_cons, List.cons.injEq] at h
          have hde : d = e := by
            have hv := congrArg hexVal h.1
            rwa [hexVal_hexDigitChar d (h1 d (List.mem_cons_self _ _)),
              hexVal_hexDigitChar e (h2 e (List.mem_cons_self _ _))] at hv
          rw [hde, ih es (fun x hx => h1 x (List.mem_cons_of_mem _ hx))
            (fun x hx => h2 x (List.mem_cons_of_mem _ hx)) h.2]

/-- The truncated digest has sixteen digits. -/
lemma digestPrefixNibbles_length (p : String) : (digestPrefixNibbles p).length = 16 := rfl

/-- The base sixteen value of the truncated digest fits in 64 bits. -/
lemma nibbleEncode_digestPrefix_lt (p : String) :
    nibbleEncode (digestPrefixNibbles p) < 16 ^ 16 := by
  have h := nibbleEncode_lt _ (digestPrefixNibbles_lt p)
  rwa [show (digestPrefixNibbles p).length = 16 from rfl] at h

attribute [irreducible] digestPrefixNibbles

/-- Two distinct indices whose paths have coinciding truncated digests exist
by the pigeonhole principle on the explicit family of 16 to the 16 plus one
paths of repeated letter a: they map into only 16 to the 16 possible 64 bit
truncations. -/
lemma exists_nibble_collision :
    ∃ m n : ℕ, m ≤ 16 ^ 16 ∧ n ≤ 16 ^ 16 ∧ m ≠ n ∧
      digestPrefixNibbles (pathOfNat m) = digestPrefixNibbles (pathOfNat n) := by
  obtain ⟨i, j, hij, heq⟩ :=
    Fintype.exists_ne_map_eq_of_card_lt
      (fun k : Fin (16 ^ 16 + 1) =>
        (⟨nibbleEncode (digestPrefixNibbles (pathOfNat k.val)),
          nibbleEncode_digestPrefix_lt (pathOfNat k.val)⟩ : Fin (16 ^ 16)))
      (by rw [Fintype.card_fin, Fintype.card_fin]; exact Nat.lt_succ_self _)
  refine ⟨i.val, j.val, Nat.lt_succ_iff.mp i.isLt, Nat.lt_succ_iff.mp j.isLt,
    fun h => hij (Fin.ext h), ?_⟩
  have hval : nibbleEncode (digestPrefixNibbles (pathOfNat i.val)) =
      nibbleEncode (digestPrefixNibbles (pathOfNat j.val)) := congrArg Fin.val heq
  exact nibbleEncode_inj _ _
    ((digestPrefixNibbles_length _).trans (digestPrefixNibbles_length _).symm)
    (digestPrefixNibbles_lt _) (digestPrefixNibbles_lt _) hval

/-- Counterexample to C8: two distinct workspace paths receive the same
collection name, and the colliding pair lies in the explicitly enumerated
family of paths of repeated letter a with length at most 16 to the 16, so
truncated injectivity fails as a universal statement. -/
theorem getWorkspaceVectorStoreName_not_injective :
    (∃ p1 p2 : String, p1 ≠ p2 ∧
      getWorkspaceVectorStoreName p1 = getWorkspaceVectorStoreName p2)
    ∧ ∃ m n : ℕ, m ≤ 16 ^ 16 ∧ n ≤ 16 ^ 16 ∧ pathOfNat m ≠ pathOfNat n ∧
        getWorkspaceVectorStoreName (pathOfNat m) =
          getWorkspaceVectorStoreName (pathOfNat n) := by
  obtain ⟨m, n, hm, hn, hmn, hnib⟩ := exists_nibble_collision
  have hpath : pathOfNat m ≠ pathOfNat n := by
    intro he
    apply hmn
    have hlen := congrArg String.length he
    simpa [pathOfNat] using hlen
  have hname : getWorkspaceVectorStoreName (pathOfNat m) =
      getWorkspaceVectorStoreName (pathOfNat n) := by
    rw [getWorkspaceVectorStoreName_eq_nibbles, getWorkspaceVectorStoreName_eq_nibbles, hnib]
  exact ⟨⟨pathOfNat m, pathOfNat n, hpath, hname⟩, m, n, hm, hn, hpath, hname⟩

set_option maxRecDepth 10000 in
/-- The truncation mechanism collides at fully concrete inputs: already at
prefix length two (the source config keeps hashLength at 16), the distinct
paths d and j share their digest prefix, computed here by the kernel on the
embedded SHA-256. -/
theorem truncated_digest_collision_concrete :
    "d" ≠ ("j" : String)
    ∧ (sha256HexChars (utf8Encode "d")).take 2 = (sha256HexChars (utf8Encode "j")).take 2
    ∧ "ws-" ++ String.mk ((sha256HexChars (utf8Encode "d")).take 2) =
        "ws-" ++ String.mk ((sha256HexChars (utf8Encode "j")).take 2) :=
  ⟨by decide, by rfl, by rfl⟩

/-- C8 amended: two workspace paths receive the same collection name exactly
when the first sixteen hexadecimal digits (the 64 bit truncation) of their
SHA-256 digests coincide; strict injectivity over all distinct paths cannot
hold for a truncated digest. -/
theorem getWorkspaceVectorStoreName_inj_iff (p1 p2 : String) :
    getWorkspaceVectorStoreName p1 = getWorkspaceVectorStoreName p2 ↔
      digestPrefixNibbles p1 = digestPrefixNibbles p2 := by
  constructor
  · intro h
    rw [getWorkspaceVectorStoreName_eq_nibbles, getWorkspaceVectorStoreName_eq_nibbles] at h
    have hdata : "ws-".data ++ (digestPrefixNibbles p1).map hexDigitChar =
        "ws-".data ++ (digestPrefixNibbles p2).map hexDigitChar := congrArg String.data h
    exact map_hexDigitChar_inj _ _ (digestPrefixNibbles_lt _) (digestPrefixNibbles_lt _)
      (List.append_cancel_left hdata)
  · intro h
    rw [getWorkspaceVectorStoreName_eq_nibbles, getWorkspaceVectorStoreName_eq_nibbles, h]

/-- The parameterized pipeline equals the hardcoded pipeline run against the
database with its fixed collection access rebound to the collection named
after the workspace path: the two implementations differ in nothing but the
collection string handed to the database client. -/
lemma roosearch_pipeline_rebind (query workspacePath : String)
    (fetchOutcome : FetchOutcome) (db : QdrantDb) :
    Roosearch.executeSearchPipeline query workspacePath fetchOutcome db =
      executeSearchPipeline query fetchOutcome
        (fun _ request => db (getWorkspaceVectorStoreName workspacePath) request) := rfl

/-- C10: the parameterized implementation and the hardcoded implementation
are behaviorally equivalent up to the fixed collection: the filter, the
transformation (including its unreachable throwing branch), the request
object and the formatter agree on every input; the hardcoded pipeline
queries exactly the literal collection ws-e9be3207f7247f18; the
parameterized pipeline equals the hardcoded one run against the database
with its fixed collection access rebound to the collection named after the
workspace path; and for a workspace path whose collection name is the
hardcoded literal the two pipelines agree on every database. -/
theorem pipelines_equivalent (points : List VectorStoreSearchResult) (query : String) :
    Roosearch.filterValidResults points = filterValidResults points
    ∧ (∀ r, Roosearch.transformSearchResult r = transformSearchResult r)
    ∧ Roosearch.transformResults points = transformResults points
    ∧ (∀ emb, Roosearch.searchRequest emb = searchRequest emb)
    ∧ (∀ rs, Roosearch.formatResults rs query = formatResults rs query)
    ∧ hardcodedCollection = "ws-e9be3207f7247f18"
    ∧ (∀ workspacePath fetchOutcome db,
        Roosearch.executeSearchPipeline query workspacePath fetchOutcome db =
          executeSearchPipeline query fetchOutcome
            (fun _ request => db (getWorkspaceVectorStoreName workspacePath) request))
    ∧ (∀ workspacePath fetchOutcome db,
        getWorkspaceVectorStoreName workspacePath = hardcodedCollection →
          Roosearch.executeSearchPipeline query workspacePath fetchOutcome db =
            executeSearchPipeline query fetchOutcome db) := by
  refine ⟨rfl, fun r => rfl, rfl, fun emb => rfl, fun rs => rfl, rfl,
    fun ws fo db => roosearch_pipeline_rebind query ws fo db, ?_⟩
  intro ws fo db h
  rw [roosearch_pipeline_rebind query ws fo db, h]
  rfl

/-- Witness for C3: the zero startLine point is dropped and the fully valid
point is kept. -/
theorem filterValidResults_spec_witness :
    filterValidResults [pointZeroStartLine] = []
    ∧ filterValidResults [validPoint] = [validPoint] :=
  ⟨filterValidResults_spec.2.2.1, filterValidResults_spec.2.2.2.2.2.1⟩

/-- Witness for C6 at the concrete query x. -/
theorem formatResults_empty_witness :
    formatResults [] "x" = "Query: \"x\"\n\nNo results found." :=
  formatResults_empty.2

/-- Witness for C9 at a concrete point list with one valid and one invalid
point. -/
theorem transformResults_total_on_filtered_witness :
    transformResults [validPoint, pointMissingCodeChunk] =
      Except.ok ((filterValidResults [validPoint, pointMissingCodeChunk]).map projectValid) :=
  (transformResults_total_on_filtered [validPoint, pointMissingCodeChunk]).1

/-- Witness for the amended C8 at concrete paths. -/
theorem getWorkspaceVectorStoreName_inj_iff_witness :
    getWorkspaceVectorStoreName "a" = getWorkspaceVectorStoreName "b" ↔
      digestPrefixNibbles "a" = digestPrefixNibbles "b" :=
  getWorkspaceVectorStoreName_inj_iff "a" "b"

/-- Witness for C10 at a concrete point list, query, workspace path and
database. -/
theorem pipelines_equivalent_witness :
    Roosearch.filterValidResults [validPoint, pointZeroStartLine] =
      filterValidResults [validPoint, pointZeroStartLine]
    ∧ hardcodedCollection = "ws-e9be3207f7247f18"
    ∧ Roosearch.executeSearchPipeline "q" "/w"
        (FetchOutcome.success sampleEmbeddingResponse) dbEmpty =
      executeSearchPipeline "q" (FetchOutcome.success sampleEmbeddingResponse)
        (fun _ request => dbEmpty (getWorkspaceVectorStoreName "/w") request) :=
  ⟨(pipelines_equivalent [validPoint, pointZeroStartLine] "q").1,
   (pipelines_equivalent [validPoint, pointZeroStartLine] "q").2.2.2.2.2.1,
   (pipelines_equivalent [validPoint, pointZeroStartLine] "q").2.2.2.2.2.2.1 "/w"
     (FetchOutcome.success sampleEmbeddingResponse) dbEmpty⟩
